import Mathlib

/-!
# Shallow embedding of `rss_bot.py` (guillaume-martin/rss-bot)

This file embeds the feed-processing pipeline of `src/rss_bot/rss_bot.py`
into Lean 4 and settles the claims of the specification against it.

External collaborators (the network, `feedparser`, `dateutil`, the SMTP
transport) are modelled as explicit oracle parameters, so every function of
the pipeline is a pure function of its inputs.  Python exceptions that the
source code lets escape are modelled with `Except`: a `.error` value means
the Python code would raise at that point and abort the run.
-/

namespace RssBot

/-- A Python `datetime` value as far as the bot inspects it: a calendar date
plus a time-of-day component (enough to let two datetimes share or differ in
their `.date()`). -/
structure PyDateTime where
  year : Nat
  month : Nat
  day : Nat
  hour : Nat
deriving DecidableEq, Repr

/-- Python's `datetime.date()`: the calendar-date triple. -/
def PyDateTime.date (dt : PyDateTime) : Nat × Nat × Nat :=
  (dt.year, dt.month, dt.day)

/-- A raw value stored under a date key of a feedparser entry: either a
pre-parsed `time.struct_time` (as feedparser stores under `published_parsed`
and `updated_parsed`) or a raw string. -/
inductive RawDateValue where
  | structTime (t : PyDateTime)
  | str (s : String)
deriving DecidableEq, Repr

/-- Oracle for `dateutil.parser.parse` on strings: `some dt` when the string
parses, `none` when dateutil raises (e.g. `ParserError` on garbage). -/
abbrev StrParser := String → Option PyDateTime

/-- `dateutil.parser.parse` applied to a raw entry value.  dateutil's parser
accepts only a string or a character stream; handed a `time.struct_time` it
raises `TypeError` ("Parser must be a string or character stream, not
struct_time"), so a structured value never parses and the `except` clause in
`published_date` skips it. -/
def dateutil_parse (sp : StrParser) : RawDateValue → Option PyDateTime
  | .structTime _ => none
  | .str s => sp s

/-- One feedparser entry, as far as `get_articles` reads it: the `title` and
`link` keys (absent field means `entry[k]` raises `KeyError`), and the raw
date fields consulted by `published_date`. -/
structure FeedEntry where
  title : Option String
  link : Option String
  fields : List (String × RawDateValue)
deriving DecidableEq, Repr

/-- `entry[k]` on a date key: `some` when present, `none` when the lookup
raises `KeyError` (which `published_date` catches). -/
def FeedEntry.getField (e : FeedEntry) (k : String) : Option RawDateValue :=
  (e.fields.find? (fun p => p.1 == k)).map (·.2)

/-- The `date_keys` list of `published_date` in source order. -/
def date_keys : List String :=
  ["published_parsed", "updated_parsed", "pubDate", "updated", "published"]

/-- The `for k in date_keys` loop of `published_date`: a missing key
(`KeyError`) or a failing `parser.parse` (any exception, including the
`TypeError` on a `struct_time`) falls through to the next key. -/
def published_date_loop (sp : StrParser) (entry : FeedEntry) :
    List String → Option PyDateTime
  | [] => none
  | k :: ks =>
    match entry.getField k with
    | none => published_date_loop sp entry ks
    | some v =>
      match dateutil_parse sp v with
      | none => published_date_loop sp entry ks
      | some dt => some dt

/-- `published_date(entry)` of the source: try the keys of `date_keys` in
order, return the first that exists and parses, else `None`. -/
def published_date (sp : StrParser) (entry : FeedEntry) : Option PyDateTime :=
  published_date_loop sp entry date_keys

/-- A Python exception that the source lets escape from the entry loop of
`get_articles` (nothing there is wrapped in `try`). -/
inductive PyError where
  | keyError (k : String)
  | attributeError (msg : String)
deriving DecidableEq, Repr

/-- Result of `feedparser.parse(feed_url)`: either the call raises, or it
returns a feed dict with an optional HTTP `status` and a list of entries. -/
inductive FetchOutcome where
  | raises
  | feed (status : Option Nat) (entries : List FeedEntry)
deriving Repr

/-- The network/feedparser oracle: what `feedparser.parse` yields for a given
(possibly absent) URL. -/
abbrev Fetcher := Option String → FetchOutcome

/-- The `for entry in entries` loop of `get_articles`, threading the
accumulated `articles` string and `articles_count`.  `entry["title"]` and
`entry["link"]` on a missing key raise `KeyError`; `pub_date.date()` when
`published_date` returned `None` raises `AttributeError`; neither is caught,
so they propagate as `.error`. -/
def articles_loop (sp : StrParser) (yesterday : Nat × Nat × Nat) :
    List FeedEntry → String → Nat → Except PyError (String × Nat)
  | [], articles, count => .ok (articles, count)
  | entry :: es, articles, count =>
    match entry.title with
    | none => .error (.keyError "title")
    | some title =>
      match entry.link with
      | none => .error (.keyError "link")
      | some article_url =>
        match published_date sp entry with
        | none => .error (.attributeError "'NoneType' object has no attribute 'date'")
        | some pub_date =>
          if pub_date.date = yesterday then
            articles_loop sp yesterday es
              (articles ++ ("<li><a href='" ++ article_url ++ "'>" ++ title ++ "</a></li>"))
              (count + 1)
          else
            articles_loop sp yesterday es articles count

/-- `get_articles(feed_url)` of the source.  The `try` covers only
`feedparser.parse`; a raise there returns `None`.  A feed with
`status == 404` returns the sentinel string `"Not Found"`.  Otherwise the
entry loop runs (its exceptions propagate), and the function returns the
`<ul>` list when at least one article was kept, else `None`. -/
def get_articles (sp : StrParser) (yesterday : Nat × Nat × Nat)
    (fetch : Fetcher) (feed_url : Option String) : Except PyError (Option String) :=
  match fetch feed_url with
  | .raises => .ok none
  | .feed status entries =>
    if status = some 404 then
      .ok (some "Not Found")
    else
      match articles_loop sp yesterday entries "<ul>" 0 with
      | .error e => .error e
      | .ok (articles, articles_count) =>
        let articles := articles ++ "</ul>"
        if articles_count > 0 then .ok (some articles) else .ok none

mutual
/-- An XML element of the feed-list document: tag, attribute dictionary,
children in document order. -/
inductive XmlElem where
  | mk (tag : String) (attrib : List (String × String)) (children : XmlForest)
/-- The ordered children of an XML element (a list, as its own inductive so
that recursion over the tree is structural). -/
inductive XmlForest where
  | nil
  | cons (hd : XmlElem) (tl : XmlForest)
end

def XmlElem.tag : XmlElem → String
  | .mk t _ _ => t

def XmlElem.attrib : XmlElem → List (String × String)
  | .mk _ a _ => a

def XmlElem.children : XmlElem → XmlForest
  | .mk _ _ c => c

/-- Python's `attrib.get(k)`: `some` value when the attribute is present,
`None` otherwise. -/
def XmlElem.attribGet (x : XmlElem) (k : String) : Option String :=
  (x.attrib.find? (fun p => p.1 == k)).map (·.2)

/-- Python's f-string rendering of a possibly-`None` value: `None` prints as
the string `"None"`. -/
def pystr : Option String → String
  | none => "None"
  | some s => s

mutual
/-- Document-order collection of every element tagged `outline` in a
subtree (the element itself, then its descendants). -/
def collect_outlines : XmlElem → List XmlElem
  | .mk tag attrib children =>
    (if tag == "outline" then [XmlElem.mk tag attrib children] else []) ++
      collect_forest children
/-- Document-order collection of the `outline` elements of a forest. -/
def collect_forest : XmlForest → List XmlElem
  | .nil => []
  | .cons x xs => collect_outlines x ++ collect_forest xs
end

/-- `tree.findall(".//outline")`: all `outline` descendants of the root, at
any nesting depth, in document order (the root itself is not a candidate). -/
def findall_outline (root : XmlElem) : List XmlElem :=
  collect_forest root.children

/-- The non-folder branch of `process_outline`: render the source heading,
call `get_articles` on the node's (possibly absent) `xmlUrl`, and dispatch on
the result exactly as the source does — note the comparison with
`"Not found"` (lower-case f) against the `"Not Found"` sentinel that
`get_articles` actually returns. -/
def feed_source_result (sp : StrParser) (yesterday : Nat × Nat × Nat)
    (fetch : Fetcher) (title url : Option String) : Except PyError (Option String) :=
  let blog := "<h2>" ++ pystr title ++ "</h2>"
  match get_articles sp yesterday fetch url with
  | .error e => .error e
  | .ok articles =>
    if articles = some "Not found" then
      .ok (some "Not Found")
    else
      match articles with
      | some a => .ok (some (blog ++ a))
      | none => .ok none

/-- `process_outline(outline)` of the source: a node whose `type` attribute
is the string `"folder"` yields its category header; every other node is
treated as a feed source. -/
def process_outline (sp : StrParser) (yesterday : Nat × Nat × Nat)
    (fetch : Fetcher) (outline : XmlElem) : Except PyError (Option String) :=
  let outline_type := outline.attribGet "type"
  let title := outline.attribGet "title"
  let url := outline.attribGet "xmlUrl"
  if outline_type = some "folder" then
    .ok (some ("<hr><h1>" ++ pystr title ++ "</h1>"))
  else
    feed_source_result sp yesterday fetch title url

/-- The `for outline in nodes` loop of `main`, threading `report` and
`errors`.  An uncaught exception from `process_outline` aborts the run. -/
def main_loop (po : XmlElem → Except PyError (Option String)) :
    List XmlElem → String → String → Except PyError (String × String)
  | [], report, errors => .ok (report, errors)
  | outline :: os, report, errors =>
    match po outline with
    | .error e => .error e
    | .ok blog_articles =>
      if blog_articles = some "Not found" then
        main_loop po os report
          (errors ++ ("<a src='" ++ pystr (outline.attribGet "xmlUrl") ++ "'>"
            ++ pystr (outline.attribGet "title") ++ "</a>"))
      else
        match blog_articles with
        | some b => main_loop po os (report ++ b) errors
        | none => main_loop po os report errors

/-- The report-building part of `main`, after `load_feeds` has produced the
tree: walk every `outline` node, then append the error section
(`report += errors`, with `errors` initialised to the header). -/
def main_report (sp : StrParser) (yesterday : Nat × Nat × Nat)
    (fetch : Fetcher) (tree : XmlElem) : Except PyError String :=
  match main_loop (process_outline sp yesterday fetch) (findall_outline tree)
      "" "<hr><h1>Errors</h1>" with
  | .error e => .error e
  | .ok (report, errors) => .ok (report ++ errors)

/-- The successive SMTP transport actions of `SmtpMailer.send_email`:
establishing the connection (`smtplib.SMTP(...)`), then `starttls`, `login`
and `sendmail`. -/
inductive SmtpStep where
  | connect
  | starttls
  | login
  | sendmail
deriving DecidableEq, Repr

/-- The transport oracle: `none` means the step succeeds, `some msg` means it
raises an exception with that detail. -/
abbrev Transport := SmtpStep → Option String

/-- The response dict of `send_email`. -/
structure MailResponse where
  status_code : Nat
  details : String
deriving DecidableEq, Repr

/-- `SmtpMailer.send_email` of the source.  `smtplib.SMTP(server, port)`
connects inside the `with` header, OUTSIDE the `try` block, so a connection
failure raises to the caller (`.error`).  The `try` covers `starttls`,
`login` and `sendmail`: the first of those to raise yields the
`status_code 400` response; if all succeed the response is 201. -/
def send_email (t : Transport) : Except String MailResponse :=
  match t SmtpStep.connect with
  | some e => .error e
  | none =>
    match t SmtpStep.starttls with
    | some e => .ok ⟨400, e⟩
    | none =>
      match t SmtpStep.login with
      | some e => .ok ⟨400, e⟩
      | none =>
        match t SmtpStep.sendmail with
        | some e => .ok ⟨400, e⟩
        | none => .ok ⟨201, "email sent"⟩

/-! ## Concrete test fixtures -/

/-- A feed-source outline node with a title and a URL. -/
def c1_node : XmlElem :=
  .mk "outline" [("type", "rss"), ("title", "t"), ("xmlUrl", "u")] .nil

/-- A feed-list document holding the single source `c1_node`. -/
def c1_tree : XmlElem := .mk "opml" [] (.cons c1_node .nil)

/-- A fetcher whose feed reports HTTP status 404 (the not-found condition). -/
def c1_fetch_404 : Fetcher := fun _ => .feed (some 404) []

/-- A fetcher for which `feedparser.parse` raises (e.g. a network error). -/
def c1_fetch_raises : Fetcher := fun _ => .raises

/-- A string-date parser that parses nothing. -/
def sp_none : StrParser := fun _ => none

/-- A fixed reference date for "yesterday". -/
def y0 : Nat × Nat × Nat := (2024, 1, 1)

/-- C1: the structured time feedparser would store under `published_parsed`. -/
def c2_struct_time : PyDateTime := ⟨2024, 1, 1, 5⟩

/-- C2: the datetime the raw `pubDate` string parses to; it disagrees with
`c2_struct_time` in every component. -/
def c2_pubdate_time : PyDateTime := ⟨2023, 12, 31, 8⟩

/-- C2: a dateutil oracle that parses exactly the `pubDate` string below. -/
def c2_sp : StrParser :=
  fun s => if s == "Sun, 31 Dec 2023 08:00:00 GMT" then some c2_pubdate_time else none

/-- C2: an entry carrying both a pre-parsed structured `published` time and a
raw `pubDate` string that disagree. -/
def c2_entry : FeedEntry :=
  ⟨some "a", some "l",
    [("published_parsed", .structTime c2_struct_time),
     ("pubDate", .str "Sun, 31 Dec 2023 08:00:00 GMT")]⟩

/-- C3: a well-formed entry none of whose date fields parses. -/
def c3_entry : FeedEntry := ⟨some "a", some "https://x.example/a", [("published", .str "garbage")]⟩

/-- C4: an entry lacking the `title` key. -/
def c4_entry : FeedEntry := ⟨none, some "https://x.example/a", [("pubDate", .str "d")]⟩

/-- C5: a transport whose connection establishment raises. -/
def c5_transport : Transport :=
  fun s => if s = SmtpStep.connect then some "connection refused" else none

/-- C5: a transport all of whose steps succeed. -/
def transport_ok : Transport := fun _ => none

/-- C6/C8: an empty feed-list document. -/
def empty_tree : XmlElem := .mk "opml" [] .nil

/-- C7: a folder node. -/
def c7_node : XmlElem := .mk "outline" [("type", "folder"), ("title", "Tech")] .nil

/-- C9: an outline node with no attributes at all — no `type`, no `xmlUrl`. -/
def c9_node : XmlElem := .mk "outline" [] .nil

/-- C10: a dateutil oracle that parses the single string "y" to a time on
2024-01-01 (the fixed "yesterday" `y0`). -/
def c10_sp : StrParser := fun s => if s == "y" then some ⟨2024, 1, 1, 0⟩ else none

/-- C10: an entry with the given title and link, dated yesterday. -/
def c10_entry (t l : String) : FeedEntry := ⟨some t, some l, [("pubDate", .str "y")]⟩


/-! ## Claims -/

/-- **C1** (code bug). A source whose feed signals 404 does not end up in the
error section: `get_articles` returns the sentinel `"Not Found"`, but both
`process_outline` and `main` compare against `"Not found"` (lower-case f),
so the sentinel leaks into the report body as `<h2>t</h2>Not Found` and the
error section stays empty; a source whose fetch raises contributes nothing
anywhere.  In both cases the source's title and URL are absent from the
error section, contradicting the claim. -/
theorem C1_failed_source_never_reaches_error_section :
    main_report sp_none y0 c1_fetch_404 c1_tree
      = .ok "<h2>t</h2>Not Found<hr><h1>Errors</h1>" ∧
    main_report sp_none y0 c1_fetch_raises c1_tree
      = .ok "<hr><h1>Errors</h1>" := by
  constructor <;> rfl

/-- **C2** (code bug). For an entry holding both a structured
`published_parsed` time and a raw `pubDate` string that disagree,
`published_date` returns the `pubDate` value, not the structured time:
`dateutil.parser.parse` raises `TypeError` on a `time.struct_time`, so the
structured candidates never parse and the raw string wins. -/
theorem C2_pubdate_string_beats_structured_time :
    published_date c2_sp c2_entry = some c2_pubdate_time ∧
      c2_pubdate_time ≠ c2_struct_time := by
  constructor
  · rfl
  · decide

/-- **C3** (code bug). An entry with no parsable date is not silently
excluded: `published_date` returns `None` and the unguarded
`pub_date.date()` raises `AttributeError`, which propagates out of
`get_articles` and aborts the run. -/
theorem C3_undated_entry_raises_attribute_error :
    get_articles sp_none y0 (fun _ => .feed none [c3_entry]) (some "u")
      = .error (.attributeError "'NoneType' object has no attribute 'date'") := by
  rfl

/-- **C4** (code bug). An entry lacking a title is not skipped silently:
`entry["title"]` raises `KeyError` outside any `try`, which propagates out
of `get_articles` and aborts the run. -/
theorem C4_missing_title_raises_key_error :
    get_articles sp_none y0 (fun _ => .feed none [c4_entry]) (some "u")
      = .error (.keyError "title") := by
  rfl

/-- **C5 counterexample**. A transport exception while establishing the
connection is NOT caught: `smtplib.SMTP(server, port)` runs in the `with`
header, outside the `try` block, so `send_email` raises to the caller
instead of returning a 400 response. -/
theorem C5_connect_failure_raises :
    send_email c5_transport = .error "connection refused" := by
  rfl

/-- **C5 amended**. Provided the connection is established, a successful
send returns status code 201 with detail "email sent", and an exception in
any of `starttls`, `login` or `sendmail` is caught and returned as a
response with status code 400 carrying the exception detail. -/
theorem C5_post_connect_exceptions_yield_400 (t : Transport)
    (h : t SmtpStep.connect = none) :
    (t SmtpStep.starttls = none → t SmtpStep.login = none →
      t SmtpStep.sendmail = none → send_email t = .ok ⟨201, "email sent"⟩) ∧
    (∀ e, t SmtpStep.starttls = some e → send_email t = .ok ⟨400, e⟩) ∧
    (∀ e, t SmtpStep.starttls = none → t SmtpStep.login = some e →
      send_email t = .ok ⟨400, e⟩) ∧
    (∀ e, t SmtpStep.starttls = none → t SmtpStep.login = none →
      t SmtpStep.sendmail = some e → send_email t = .ok ⟨400, e⟩) := by
  refine ⟨fun h1 h2 h3 => ?_, fun e h1 => ?_, fun e h1 h2 => ?_, fun e h1 h2 h3 => ?_⟩ <;>
    simp [send_email, h, h1]
  · simp [h2, h3]
  · simp [h2]
  · simp [h2, h3]

/-- **C5 witness**: the amended theorem applied to the all-success
transport. -/
theorem C5_post_connect_exceptions_yield_400_witness :
    send_email transport_ok = .ok ⟨201, "email sent"⟩ :=
  (C5_post_connect_exceptions_yield_400 transport_ok rfl).1 rfl rfl rfl

/-- Helper for C6: along the main loop the `errors` accumulator only ever
grows by appended entries, and it grows not at all when no processed node
yields the `"Not found"` sentinel. -/
theorem main_loop_errors_extend (po : XmlElem → Except PyError (Option String)) :
    ∀ (os : List XmlElem) (report errors report' errors' : String),
      main_loop po os report errors = .ok (report', errors') →
      ∃ extra, errors' = errors ++ extra ∧
        ((∀ o ∈ os, po o ≠ .ok (some "Not found")) → extra = "") := by
  intro os
  induction os with
  | nil =>
    intro report errors report' errors' h
    simp only [main_loop] at h
    cases h
    exact ⟨"", (String.append_empty _).symm, fun _ => rfl⟩
  | cons o os ih =>
    intro report errors report' errors' h
    simp only [main_loop] at h
    split at h
    · cases h
    next blog_articles hpo =>
      split at h
      next hnf =>
        obtain ⟨extra, hext, -⟩ := ih _ _ _ _ h
        refine ⟨("<a src='" ++ pystr (o.attribGet "xmlUrl") ++ "'>"
          ++ pystr (o.attribGet "title") ++ "</a>") ++ extra, ?_, ?_⟩
        · rw [hext, String.append_assoc]
        · intro hall
          exact absurd (hnf ▸ hpo) (hall o (by simp))
      next hnf =>
        split at h
        next b hb =>
          obtain ⟨extra, hext, hempty⟩ := ih _ _ _ _ h
          exact ⟨extra, hext, fun hall => hempty fun x hx => hall x (by simp [hx])⟩
        next hb =>
          obtain ⟨extra, hext, hempty⟩ := ih _ _ _ _ h
          exact ⟨extra, hext, fun hall => hempty fun x hx => hall x (by simp [hx])⟩

/-- **C6** (confirmed). Whenever a run completes, the finalized report is the
body followed by the error-section header `<hr><h1>Errors</h1>` followed by
the accumulated error entries; and when no source failed (no node produced
the `"Not found"` sentinel) the trailing error section is the bare header,
i.e. the entries part is empty. -/
theorem C6_report_ends_with_error_section (sp : StrParser)
    (yesterday : Nat × Nat × Nat) (fetch : Fetcher) (tree : XmlElem) (s : String)
    (h : main_report sp yesterday fetch tree = .ok s) :
    ∃ body entries, s = body ++ "<hr><h1>Errors</h1>" ++ entries ∧
      ((∀ o ∈ findall_outline tree,
          process_outline sp yesterday fetch o ≠ .ok (some "Not found")) →
        entries = "") := by
  simp only [main_report] at h
  cases hml : main_loop (process_outline sp yesterday fetch) (findall_outline tree)
      "" "<hr><h1>Errors</h1>" with
  | error e => rw [hml] at h; cases h
  | ok rc =>
    rw [hml] at h
    obtain ⟨report, errors⟩ := rc
    cases h
    obtain ⟨extra, hext, hempty⟩ := main_loop_errors_extend _ _ _ _ _ _ hml
    exact ⟨report, extra, by rw [hext, String.append_assoc], hempty⟩

/-- **C6 witness**: the theorem applied to a run over the empty document. -/
theorem C6_report_ends_with_error_section_witness :
    ∃ body entries, "<hr><h1>Errors</h1>" = body ++ "<hr><h1>Errors</h1>" ++ entries ∧
      ((∀ o ∈ findall_outline empty_tree,
          process_outline sp_none y0 c1_fetch_raises o ≠ .ok (some "Not found")) →
        entries = "") :=
  C6_report_ends_with_error_section sp_none y0 c1_fetch_raises empty_tree
    "<hr><h1>Errors</h1>" rfl

/-- **C7** (confirmed). A node with `type == "folder"` yields exactly the
category-header fragment `<hr><h1>` + title + `</h1>`, and its processing is
independent of the fetcher — no feed fetch is performed.  `process_outline`
acts on the node alone, so this holds wherever and however deep the node
sits in the document. -/
theorem C7_folder_emits_header_without_fetch (sp : StrParser)
    (yesterday : Nat × Nat × Nat) (f1 f2 : Fetcher) (o : XmlElem)
    (h : o.attribGet "type" = some "folder") :
    process_outline sp yesterday f1 o
      = .ok (some ("<hr><h1>" ++ pystr (o.attribGet "title") ++ "</h1>")) ∧
    process_outline sp yesterday f1 o = process_outline sp yesterday f2 o := by
  constructor <;> simp [process_outline, h]

/-- **C7 witness**: the theorem applied to a concrete folder node and two
fetchers that disagree everywhere. -/
theorem C7_folder_emits_header_without_fetch_witness :
    process_outline sp_none y0 c1_fetch_raises c7_node
      = .ok (some ("<hr><h1>" ++ pystr (c7_node.attribGet "title") ++ "</h1>")) ∧
    process_outline sp_none y0 c1_fetch_raises c7_node
      = process_outline sp_none y0 c1_fetch_404 c7_node :=
  C7_folder_emits_header_without_fetch sp_none y0 c1_fetch_raises c1_fetch_404
    c7_node rfl

/-- **C8** (confirmed). The report is a deterministic function of the
feed-list document, the reference date and the feed contents: all effects
of the pipeline are read through its oracle inputs, so two runs with the
same feed-list tree, the same "yesterday" and the same fetch results
produce identical outcomes (in particular byte-identical report bodies). -/
theorem C8_pipeline_deterministic (sp : StrParser) (yesterday : Nat × Nat × Nat)
    (fetch : Fetcher) (tree : XmlElem) (r1 r2 : Except PyError String)
    (h1 : main_report sp yesterday fetch tree = r1)
    (h2 : main_report sp yesterday fetch tree = r2) : r1 = r2 :=
  h1 ▸ h2 ▸ rfl

/-- **C8 witness**: two runs over the one-source document with 404ing feeds
agree. -/
theorem C8_pipeline_deterministic_witness :
    (Except.ok "<h2>t</h2>Not Found<hr><h1>Errors</h1>" :
        Except PyError String)
      = .ok "<h2>t</h2>Not Found<hr><h1>Errors</h1>" :=
  C8_pipeline_deterministic sp_none y0 c1_fetch_404 c1_tree _ _ rfl rfl

/-- **C9** (confirmed). A node whose `type` attribute is anything other than
the exact string `"folder"` — including a node with no `type` attribute, and
a node with no `xmlUrl` attribute — is treated as a feed source: processing
it runs the feed-source branch, which starts by handing the possibly-absent
(`None`) `xmlUrl` value to `get_articles`; moreover the result depends on
the fetcher only through its answer at that `xmlUrl` value. -/
theorem C9_nonfolder_treated_as_feed_source (sp : StrParser)
    (yesterday : Nat × Nat × Nat) (fetch : Fetcher) (o : XmlElem)
    (h : o.attribGet "type" ≠ some "folder") :
    process_outline sp yesterday fetch o
      = feed_source_result sp yesterday fetch (o.attribGet "title")
          (o.attribGet "xmlUrl") ∧
    ∀ f1 f2 : Fetcher, f1 (o.attribGet "xmlUrl") = f2 (o.attribGet "xmlUrl") →
      process_outline sp yesterday f1 o = process_outline sp yesterday f2 o := by
  constructor
  · simp [process_outline, h]
  · intro f1 f2 hf
    simp only [process_outline, if_neg h, feed_source_result, get_articles, hf]

/-- **C9 witness**: the theorem applied to a node with no attributes at all
(no `type`, no `title`, no `xmlUrl`). -/
theorem C9_nonfolder_treated_as_feed_source_witness :
    process_outline sp_none y0 c1_fetch_raises c9_node
      = feed_source_result sp_none y0 c1_fetch_raises (c9_node.attribGet "title")
          (c9_node.attribGet "xmlUrl") ∧
    ∀ f1 f2 : Fetcher, f1 (c9_node.attribGet "xmlUrl") = f2 (c9_node.attribGet "xmlUrl") →
      process_outline sp_none y0 f1 c9_node = process_outline sp_none y0 f2 c9_node :=
  C9_nonfolder_treated_as_feed_source sp_none y0 c1_fetch_raises c9_node
    (by simp [XmlElem.attribGet, c9_node, XmlElem.attrib])

/-- **C10** (confirmed). A kept entry's title and link are interpolated
verbatim — no escaping of HTML metacharacters or quotes — into the fragment
`<li><a href='` + link + `'>` + title + `</a></li>` of the rendered list:
whatever markup the strings `t` and `l` contain appears unmodified in the
output of `get_articles`. -/
theorem C10_title_and_link_interpolated_verbatim (t l : String) :
    get_articles c10_sp y0 (fun _ => .feed none [c10_entry t l]) (some "u")
      = .ok (some ("<ul>" ++ "<li><a href='" ++ l ++ "'>" ++ t
          ++ "</a></li>" ++ "</ul>")) := by
  simp [get_articles, articles_loop, published_date, published_date_loop, date_keys,
    FeedEntry.getField, c10_entry, c10_sp, dateutil_parse, PyDateTime.date, y0,
    String.append_assoc]
  rw [← String.append_assoc]
  rfl

end RssBot
